import Mathlib

/-!
Shallow embedding of the IPL analytics dashboard (src/app.py).

The program loads two CSV files into an in-memory SQLite database
(tables `matches` and `deliveries`) and runs aggregate SQL queries
against them.  Here the two tables are Lean lists of row structures,
and each SQL query is translated into a list computation
(`countP` for COUNT with a WHERE clause, `dedup`/`mergeSort`
for SELECT DISTINCT ... ORDER BY, grouping by `dedup` + `count`).
-/

/-- A row of the `matches` table (one row per match), as loaded from
matches.csv.  `winner` is nullable; a null winner or the sentinel
string "No Result" marks a no-result match. -/
structure MatchRow where
  id : Nat
  date : String
  team1 : String
  team2 : String
  venue : String
  winner : Option String
  player_of_match : Option String

/-- A row of the `deliveries` table (one row per ball bowled).
`dismissal_kind` is nullable.  The batter-identifying column may be
labelled either "batter" or "batsman" in the CSV; the row carries the
single batter value regardless of the label. -/
structure DeliveryRow where
  match_id : Nat
  batter : String
  bowler : String
  batsman_runs : Nat
  dismissal_kind : Option String

/- ---------- Team Performance view (app.py lines 172-266) ---------- -/

/-- `SELECT DISTINCT team1 FROM matches ORDER BY team1;` (app.py line 176):
the team selector list is built from the distinct `team1` values only,
sorted ascending. -/
def teamsList (ms : List MatchRow) : List String :=
  List.insertionSort (fun a b => a ≤ b) ((ms.map MatchRow.team1).dedup)

/-- `SELECT COUNT(*) FROM matches WHERE Team1 = t OR Team2 = t;`
(app.py lines 185-189). -/
def totalMatches (ms : List MatchRow) (t : String) : Nat :=
  ms.countP (fun m => decide (m.team1 = t ∨ m.team2 = t))

/-- `SELECT COUNT(*) FROM matches WHERE Winner = t;` (app.py lines 194-198). -/
def totalWins (ms : List MatchRow) (t : String) : Nat :=
  ms.countP (fun m => decide (m.winner = some t))

/-- `SELECT COUNT(*) FROM matches WHERE (Team1 = t OR Team2 = t) AND
(winner IS NULL OR winner = 'No Result');` (app.py lines 203-208). -/
def totalNoResult (ms : List MatchRow) (t : String) : Nat :=
  ms.countP (fun m =>
    decide ((m.team1 = t ∨ m.team2 = t) ∧
      (m.winner = none ∨ m.winner = some "No Result")))

/-- `total_losses = total_matches - total_wins - total_no_result`
(app.py line 213): plain integer subtraction, derived, never queried,
not guarded against going negative. -/
def totalLosses (ms : List MatchRow) (t : String) : Int :=
  (totalMatches ms t : Int) - (totalWins ms t : Int) - (totalNoResult ms t : Int)

/-- The Win/Loss pie chart data (app.py lines 224-243): drawn only when
`total_matches > 0`; the (label, size) pairs with `size > 0` are kept
(`non_zero_sizes` filter); if none remain no chart is drawn (`none`). -/
def teamPieData (ms : List MatchRow) (t : String) : Option (List (String × Int)) :=
  if 0 < totalMatches ms t then
    let sizes : List (String × Int) :=
      [("Wins", (totalWins ms t : Int)), ("Losses", totalLosses ms t),
       ("No Result", (totalNoResult ms t : Int))]
    let nonZero := sizes.filter (fun p => decide (0 < p.2))
    if nonZero.isEmpty then none else some nonZero
  else none

/- ---------- Batsman Boundary Analysis (app.py lines 114-165) ---------- -/

/-- The schema of deliveries.csv as far as the batter column is
concerned: which of the two candidate column labels exist. -/
structure DeliveriesSchema where
  hasBatter : Bool
  hasBatsman : Bool

/-- Outcome of resolving the batter-identifying column. -/
inductive BatterColResolution where
  | resolved (colName : String)
  | failed (errMsg : String)
deriving DecidableEq

/-- The try/except fallback of app.py lines 117-129: the query
`SELECT DISTINCT batter ...` is tried first; on a schema mismatch
(DatabaseError) the query is retried with column `batsman`; if that
also fails a scoped error is shown and the app stops. -/
def resolveBatterCol (s : DeliveriesSchema) : BatterColResolution :=
  if s.hasBatter then .resolved "batter"
  else if s.hasBatsman then .resolved "batsman"
  else .failed "Could not find 'batter' or 'batsman' column in deliveries.csv."

/-- `SUM(CASE WHEN batsman_runs = r THEN 1 ELSE 0 END) FROM deliveries
WHERE <batter col> = x` (app.py lines 134-140).  SQL SUM over zero rows
is NULL (`none`); otherwise it is the count of the batter's deliveries
with `batsman_runs = r`. -/
def boundaryAgg (ds : List DeliveryRow) (x : String) (r : Nat) : Option Nat :=
  let rows := ds.filter (fun d => decide (d.batter = x))
  if rows.isEmpty then none
  else some (rows.countP (fun d => decide (d.batsman_runs = r)))

/-- `int(v) if v else 0` (app.py lines 150-151): a null (None) or zero
aggregate renders as 0, everything else as itself. -/
def renderBoundaryMetric : Option Nat → Nat
  | none => 0
  | some n => if n = 0 then 0 else n

/-- The displayed Fours metric for batter `x`. -/
def displayedFours (ds : List DeliveryRow) (x : String) : Nat :=
  renderBoundaryMetric (boundaryAgg ds x 4)

/-- The displayed Sixes metric for batter `x`. -/
def displayedSixes (ds : List DeliveryRow) (x : String) : Nat :=
  renderBoundaryMetric (boundaryAgg ds x 6)

/-- The batsman boundary pie chart data (app.py lines 154-163): drawn
whenever at least one of the two counts is positive, and then both
fixed categories are passed to the chart, with no zero filtering. -/
def batsmanPieData (ds : List DeliveryRow) (x : String) : Option (List (String × Nat)) :=
  let fours := displayedFours ds x
  let sixes := displayedSixes ds x
  if 0 < fours ∨ 0 < sixes then some [("Fours", fours), ("Sixes", sixes)]
  else none

/- ---------- Bowler Wicket Analysis (app.py lines 268-331) ---------- -/

/-- The three dismissal kinds not credited to the bowler
(app.py lines 285 and 312). -/
def excludedKinds : List String := ["run out", "retired hurt", "obstructing the field"]

/-- `dismissal_kind IS NOT NULL AND dismissal_kind NOT IN
('run out', 'retired hurt', 'obstructing the field')`. -/
def creditedWicket (d : DeliveryRow) : Bool :=
  match d.dismissal_kind with
  | none => false
  | some k => decide (k ∉ excludedKinds)

/-- `COUNT(CASE WHEN <credited> THEN 1 ELSE NULL END) ... WHERE bowler = x`
(app.py lines 283-288): COUNT ignores the NULLs, so this counts the
bowler's deliveries with a credited dismissal kind. -/
def totalWickets (ds : List DeliveryRow) (x : String) : Nat :=
  (ds.filter (fun d => decide (d.bowler = x))).countP creditedWicket

/-- `COUNT(*) ... WHERE bowler = x` (app.py lines 283-288). -/
def totalBalls (ds : List DeliveryRow) (x : String) : Nat :=
  (ds.filter (fun d => decide (d.bowler = x))).length

/-- `f"{total_balls // 6}.{total_balls % 6}"` (app.py line 296). -/
def oversBowledStr (tBalls : Nat) : String :=
  toString (tBalls / 6) ++ "." ++ toString (tBalls % 6)

/-- The dismissal kinds of the bowler's credited-wicket deliveries
(the rows fed to the GROUP BY of app.py lines 305-315). -/
def wicketKinds (ds : List DeliveryRow) (x : String) : List String :=
  ((ds.filter (fun d => decide (d.bowler = x))).filter creditedWicket).filterMap
    DeliveryRow.dismissal_kind

/-- `SELECT dismissal_kind, COUNT(*) ... GROUP BY dismissal_kind
ORDER BY wicket_count DESC;` (app.py lines 305-315): one
(kind, count) pair per distinct credited kind, by descending count. -/
def wicketTypes (ds : List DeliveryRow) (x : String) : List (String × Nat) :=
  let ks := wicketKinds ds x
  List.insertionSort (fun p q => p.2 ≥ q.2) (ks.dedup.map (fun k => (k, ks.count k)))

/- ---------- Head-to-Head view (app.py lines 400-461) ---------- -/

/-- The two named teams are the two participants, in either order. -/
def matchesPair (m : MatchRow) (a b : String) : Bool :=
  decide ((m.team1 = a ∧ m.team2 = b) ∨ (m.team1 = b ∧ m.team2 = a))

/-- `SELECT COUNT(*) FROM matches WHERE (team1=a AND team2=b) OR
(team1=b AND team2=a);` (app.py lines 412-417). -/
def h2hTotal (ms : List MatchRow) (a b : String) : Nat :=
  ms.countP (fun m => matchesPair m a b)

/-- `SELECT COUNT(*) FROM matches WHERE winner = a AND <pair>;`
(app.py lines 422-428). -/
def teamAWins (ms : List MatchRow) (a b : String) : Nat :=
  ms.countP (fun m => decide (m.winner = some a) && matchesPair m a b)

/-- `SELECT COUNT(*) FROM matches WHERE winner = b AND <pair>;`
(app.py lines 433-439). -/
def teamBWins (ms : List MatchRow) (a b : String) : Nat :=
  ms.countP (fun m => decide (m.winner = some b) && matchesPair m a b)

/-- `h2h_no_result = h2h_total - team_a_wins - team_b_wins`
(app.py line 444): derived by integer subtraction, never queried. -/
def h2hNoResult (ms : List MatchRow) (a b : String) : Int :=
  (h2hTotal ms a b : Int) - (teamAWins ms a b : Int) - (teamBWins ms a b : Int)

/-- What the head-to-head section displays. -/
inductive H2HDisplay where
  | warning
  | noMatchesMessage
  | metrics (total aWins bWins : Nat) (noResult : Int)
  | nothing
deriving DecidableEq

/-- The control flow of app.py lines 408-461: `if team_a and team_b and
team_a != team_b:` runs the three queries and shows metrics (or a
"have not played" message when the total is 0); `elif team_a == team_b:`
shows a warning; otherwise nothing is shown.  A Python empty string is
falsy, hence the non-empty tests. -/
def h2hView (ms : List MatchRow) (a b : String) : H2HDisplay :=
  if a ≠ "" ∧ b ≠ "" ∧ a ≠ b then
    if 0 < h2hTotal ms a b then
      .metrics (h2hTotal ms a b) (teamAWins ms a b) (teamBWins ms a b) (h2hNoResult ms a b)
    else .noMatchesMessage
  else if a = b then .warning
  else .nothing

/-- How many of the three head-to-head queries execute: all of them sit
inside the `team_a and team_b and team_a != team_b` branch
(app.py lines 408-441), so none runs outside it. -/
def h2hQueriesExecuted (a b : String) : Nat :=
  if a ≠ "" ∧ b ≠ "" ∧ a ≠ b then 3 else 0

/- ---------- Shared sample data for witnesses ---------- -/

/-- A sample match: team1 "A" beat team2 "B". -/
def mAB : MatchRow := ⟨1, "2008-04-18", "A", "B", "V", some "A", none⟩

/-- A sample match between "A" and "B" with a null winner. -/
def mABnull : MatchRow := ⟨2, "2008-04-19", "A", "B", "V", none, none⟩

/-- A sample match between "A" and "B" whose winner field names a third
team "C". -/
def mABthird : MatchRow := ⟨3, "2008-04-20", "B", "A", "V", some "C", none⟩

/- ---------- Theorems ---------- -/

/-- C1: for every team selectable in the Team Performance view,
wins + losses + no-result equals total matches, losses being the
derived quantity total - wins - no-result computed over the integers
(not guarded against going negative). -/
theorem team_win_loss_identity (ms : List MatchRow) (t : String)
    (_h : t ∈ teamsList ms) :
    (totalWins ms t : Int) + totalLosses ms t + (totalNoResult ms t : Int) =
      (totalMatches ms t : Int) := by
  unfold totalLosses; ring

/-- Witness for C1 at a concrete one-match table. -/
theorem team_win_loss_identity_witness :
    (totalWins [mAB] "A" : Int) + totalLosses [mAB] "A" +
      (totalNoResult [mAB] "A" : Int) = (totalMatches [mAB] "A" : Int) :=
  team_win_loss_identity [mAB] "A"
    (by simp [teamsList, List.mem_insertionSort, List.mem_dedup, mAB])

/-- The head-to-head pair predicate is symmetric in the two teams. -/
theorem matchesPair_symm (m : MatchRow) (a b : String) :
    matchesPair m a b = matchesPair m b a := by
  unfold matchesPair
  exact decide_eq_decide.mpr or_comm

/-- C2: the head-to-head computation is symmetric in selection order:
the total is the same for (a, b) and (b, a), and the wins credited to
the first-selected team of (a, b) equal the wins credited to the
second-selected team of (b, a). -/
theorem h2h_selection_symmetry (ms : List MatchRow) (a b : String) (_h : a ≠ b) :
    h2hTotal ms a b = h2hTotal ms b a ∧ teamAWins ms a b = teamBWins ms b a := by
  constructor
  · unfold h2hTotal
    exact List.countP_congr (fun m _ => by rw [matchesPair_symm m a b])
  · unfold teamAWins teamBWins
    exact List.countP_congr (fun m _ => by rw [matchesPair_symm m a b])

/-- Witness for C2 at a concrete one-match table. -/
theorem h2h_selection_symmetry_witness :
    h2hTotal [mAB] "A" "B" = h2hTotal [mAB] "B" "A" ∧
      teamAWins [mAB] "A" "B" = teamBWins [mAB] "B" "A" :=
  h2h_selection_symmetry [mAB] "A" "B" (by decide)

/-- C4: the overs string is the decimal-point concatenation of
total balls div 6 and total balls mod 6, this split reconstructs the
ball count exactly, 37 balls give "6.1" and zero balls give "0.0". -/
theorem overs_string_split (ds : List DeliveryRow) (x : String) :
    6 * (totalBalls ds x / 6) + totalBalls ds x % 6 = totalBalls ds x ∧
    oversBowledStr (totalBalls ds x) =
      toString (totalBalls ds x / 6) ++ "." ++ toString (totalBalls ds x % 6) ∧
    oversBowledStr 37 = "6.1" ∧ oversBowledStr 0 = "0.0" :=
  ⟨Nat.div_add_mod (totalBalls ds x) 6, rfl, by decide, by decide⟩

/-- C8: selecting the same team twice in the head-to-head view yields
the guarded warning and executes none of the three queries. -/
theorem h2h_same_team_guard (ms : List MatchRow) (a b : String) (h : a = b) :
    h2hView ms a b = H2HDisplay.warning ∧ h2hQueriesExecuted a b = 0 := by
  subst h
  unfold h2hView h2hQueriesExecuted
  simp

/-- Witness for C8 at a concrete selection. -/
theorem h2h_same_team_guard_witness :
    h2hView [mAB] "A" "A" = H2HDisplay.warning ∧ h2hQueriesExecuted "A" "A" = 0 :=
  h2h_same_team_guard [mAB] "A" "A" rfl

/-- The head-to-head matches whose winner field names neither selected
team: a null winner, the sentinel string "No Result", or any third
team's name all satisfy this predicate. -/
def h2hOtherOutcome (ms : List MatchRow) (a b : String) : Nat :=
  ms.countP (fun m =>
    matchesPair m a b && decide (m.winner ≠ some a) && decide (m.winner ≠ some b))

/-- For distinct teams, the head-to-head total splits into a-wins,
b-wins, and matches won by neither selected team. -/
theorem h2h_total_partition (ms : List MatchRow) (a b : String) (h : a ≠ b) :
    h2hTotal ms a b = teamAWins ms a b + teamBWins ms a b + h2hOtherOutcome ms a b := by
  induction ms with
  | nil => rfl
  | cons m tl ih =>
    simp only [h2hTotal, teamAWins, teamBWins, h2hOtherOutcome, List.countP_cons] at ih ⊢
    have hrow : (if matchesPair m a b then (1 : Nat) else 0) =
        (if decide (m.winner = some a) && matchesPair m a b then (1 : Nat) else 0) +
        (if decide (m.winner = some b) && matchesPair m a b then (1 : Nat) else 0) +
        (if matchesPair m a b && decide (m.winner ≠ some a) && decide (m.winner ≠ some b)
          then (1 : Nat) else 0) := by
      cases hp : matchesPair m a b
      · simp [hp]
      · cases hw : m.winner with
        | none => simp [hp, hw]
        | some w =>
          by_cases hwa : w = a
          · subst hwa; simp [hp, hw, h]
          · by_cases hwb : w = b
            · subst hwb; simp [hp, hw, hwa]
            · simp [hp, hw, hwa, hwb]
    omega

/-- C10: the head-to-head no-result figure is derived by subtraction
from the three queried counts, and for distinct teams it therefore
counts exactly the head-to-head matches whose winner is neither
selected team - winner null, winner "No Result", or a third team. -/
theorem h2h_no_result_by_subtraction (ms : List MatchRow) (a b : String) (h : a ≠ b) :
    h2hNoResult ms a b =
      (h2hTotal ms a b : Int) - (teamAWins ms a b : Int) - (teamBWins ms a b : Int) ∧
    h2hNoResult ms a b = (h2hOtherOutcome ms a b : Int) := by
  have hp := h2h_total_partition ms a b h
  unfold h2hNoResult
  omega

/-- Witness for C10: of four matches between "A" and "B" (won by "A",
winner null, winner "No Result", winner a third team "C"), three count
as no-result. -/
theorem h2h_no_result_by_subtraction_witness :
    h2hNoResult [mAB, mABnull, ⟨4, "2008-04-21", "A", "B", "V", some "No Result", none⟩,
        mABthird] "A" "B" =
      (h2hTotal [mAB, mABnull, ⟨4, "2008-04-21", "A", "B", "V", some "No Result", none⟩,
        mABthird] "A" "B" : Int) -
      (teamAWins [mAB, mABnull, ⟨4, "2008-04-21", "A", "B", "V", some "No Result", none⟩,
        mABthird] "A" "B" : Int) -
      (teamBWins [mAB, mABnull, ⟨4, "2008-04-21", "A", "B", "V", some "No Result", none⟩,
        mABthird] "A" "B" : Int) ∧
    h2hNoResult [mAB, mABnull, ⟨4, "2008-04-21", "A", "B", "V", some "No Result", none⟩,
        mABthird] "A" "B" =
      (h2hOtherOutcome [mAB, mABnull, ⟨4, "2008-04-21", "A", "B", "V", some "No Result", none⟩,
        mABthird] "A" "B" : Int) :=
  h2h_no_result_by_subtraction _ "A" "B" (by decide)

/-- C5: the displayed Fours and Sixes metrics equal the counts of the
batter's deliveries with batsman_runs 4 and 6 respectively; a batter
with zero matching rows or zero boundaries renders as 0 (the null/zero
aggregate is a defined value, not an error). -/
theorem renderBoundaryMetric_boundaryAgg (ds : List DeliveryRow) (x : String) (r : Nat) :
    renderBoundaryMetric (boundaryAgg ds x r) =
      (ds.filter (fun d => decide (d.batter = x))).countP
        (fun d => decide (d.batsman_runs = r)) := by
  simp only [boundaryAgg]
  split
  · next hEmpty =>
      rw [List.isEmpty_iff.mp hEmpty]
      rfl
  · simp only [renderBoundaryMetric]
    split <;> omega

theorem boundary_metrics_correct (ds : List DeliveryRow) (x : String) :
    displayedFours ds x =
      (ds.filter (fun d => decide (d.batter = x))).countP
        (fun d => decide (d.batsman_runs = 4)) ∧
    displayedSixes ds x =
      (ds.filter (fun d => decide (d.batter = x))).countP
        (fun d => decide (d.batsman_runs = 6)) :=
  ⟨renderBoundaryMetric_boundaryAgg ds x 4, renderBoundaryMetric_boundaryAgg ds x 6⟩

/-- C6: the batter column resolution tries the primary label "batter"
first, falls back to the secondary label "batsman" on failure, and
reports the scoped error only when both fail.  All later batter queries
interpolate the resolved label; the row data they see is the same
either way, so the resolution is the whole observable difference. -/
theorem batter_column_fallback (s : DeliveriesSchema) :
    (s.hasBatter = true → resolveBatterCol s = .resolved "batter") ∧
    (s.hasBatter = false → s.hasBatsman = true →
      resolveBatterCol s = .resolved "batsman") ∧
    (s.hasBatter = false → s.hasBatsman = false →
      resolveBatterCol s =
        .failed "Could not find 'batter' or 'batsman' column in deliveries.csv.") := by
  obtain ⟨b1, b2⟩ := s
  cases b1 <;> cases b2 <;> simp [resolveBatterCol]

/-- Witness for C6: with only the secondary column present, resolution
falls back to "batsman". -/
theorem batter_column_fallback_witness :
    resolveBatterCol ⟨false, true⟩ = .resolved "batsman" :=
  (batter_column_fallback ⟨false, true⟩).2.1 rfl rfl

/-- A delivery counted as a credited wicket has a non-null dismissal
kind. -/
theorem creditedWicket_isSome (d : DeliveryRow) (h : creditedWicket d = true) :
    d.dismissal_kind.isSome := by
  unfold creditedWicket at h
  cases hk : d.dismissal_kind with
  | none => rw [hk] at h; exact absurd h (by simp)
  | some k => rfl

/-- Extracting the dismissal kinds of a list of deliveries that all
have one loses no rows. -/
theorem length_filterMap_dismissal (l : List DeliveryRow)
    (h : ∀ d ∈ l, d.dismissal_kind.isSome) :
    (l.filterMap DeliveryRow.dismissal_kind).length = l.length := by
  induction l with
  | nil => rfl
  | cons d tl ih =>
    cases hk : d.dismissal_kind with
    | none =>
        have := h d (List.mem_cons_self d tl)
        rw [hk] at this
        exact absurd this (by simp)
    | some k =>
        simp only [List.filterMap_cons, hk, List.length_cons]
        rw [ih (fun e he => h e (List.mem_cons_of_mem d he))]

/-- C3: the reported wicket total counts exactly the bowler's
deliveries with a non-null, non-excluded dismissal kind, and the
per-kind counts of the wicket-type breakdown (a separate grouped query
with the same exclusions) sum back to that total. -/
theorem wicket_breakdown_consistency (ds : List DeliveryRow) (x : String) :
    totalWickets ds x =
      ds.countP (fun d => decide (d.bowler = x) && creditedWicket d) ∧
    ((wicketTypes ds x).map Prod.snd).sum = totalWickets ds x := by
  constructor
  · unfold totalWickets
    rw [List.countP_filter]
    exact List.countP_congr (fun d _ => by rw [Bool.and_comm])
  · unfold wicketTypes
    have hperm :
        (List.insertionSort (fun p q : String × Nat => p.2 ≥ q.2)
            ((wicketKinds ds x).dedup.map
              (fun k => (k, (wicketKinds ds x).count k)))).Perm
          ((wicketKinds ds x).dedup.map
            (fun k => (k, (wicketKinds ds x).count k))) :=
      List.perm_insertionSort _ _
    rw [(hperm.map Prod.snd).sum_eq]
    rw [List.map_map]
    have hcomp : (Prod.snd ∘ fun k => (k, (wicketKinds ds x).count k)) =
        fun k => (wicketKinds ds x).count k := rfl
    rw [hcomp, List.sum_map_count_dedup_eq_length (wicketKinds ds x)]
    unfold wicketKinds totalWickets
    rw [List.countP_eq_length_filter]
    exact length_filterMap_dismissal _
      (fun d hd => creditedWicket_isSome d (List.of_mem_filter hd))

/-- A sample delivery: batter "X" hit a four off bowler "Y". -/
def dFour : DeliveryRow := ⟨1, "X", "Y", 4, none⟩

/-- Counterexample to C7: for a batter with one four and no sixes the
batsman pie chart is drawn and its data still contains the zero-count
category ("Sixes", 0), so the plotted list is not restricted to
categories with positive counts. -/
theorem pie_zero_exclusion_counterexample :
    batsmanPieData [dFour] "X" = some [("Fours", 1), ("Sixes", 0)] ∧
    ¬ (∀ p ∈ (batsmanPieData [dFour] "X").getD [], 0 < p.2) := by
  constructor <;> decide

/-- C7 amended: only the team Wins/Losses/No-Result chart excludes
zero-count categories (its plotted data is exactly the positive-count
entries of the full three-category list); the batsman Fours/Sixes
chart, whenever drawn, passes both fixed categories unfiltered. -/
theorem pie_zero_exclusion_amended (ms : List MatchRow) (t : String)
    (ds : List DeliveryRow) (x : String) (l : List (String × Int))
    (l2 : List (String × Nat))
    (hT : teamPieData ms t = some l) (hB : batsmanPieData ds x = some l2) :
    l = [("Wins", (totalWins ms t : Int)), ("Losses", totalLosses ms t),
         ("No Result", (totalNoResult ms t : Int))].filter
          (fun p => decide (0 < p.2)) ∧
    (∀ p ∈ l, 0 < p.2) ∧
    l2 = [("Fours", displayedFours ds x), ("Sixes", displayedSixes ds x)] := by
  simp only [teamPieData] at hT
  simp only [batsmanPieData] at hB
  have hl : l = [("Wins", (totalWins ms t : Int)), ("Losses", totalLosses ms t),
      ("No Result", (totalNoResult ms t : Int))].filter (fun p => decide (0 < p.2)) := by
    split at hT
    · split at hT
      · exact absurd hT (by simp)
      · exact (Option.some.inj hT).symm
    · exact absurd hT (by simp)
  refine ⟨hl, ?_, ?_⟩
  · intro p hp
    rw [hl] at hp
    exact of_decide_eq_true (List.mem_filter.mp hp).2
  · split at hB
    · exact (Option.some.inj hB).symm
    · exact absurd hB (by simp)

/-- Witness for C7 amended at a one-match table and a one-delivery
table. -/
theorem pie_zero_exclusion_amended_witness :
    ([(("Wins" : String), (1 : Int))] =
      [("Wins", (totalWins [mAB] "A" : Int)), ("Losses", totalLosses [mAB] "A"),
       ("No Result", (totalNoResult [mAB] "A" : Int))].filter
        (fun p => decide (0 < p.2))) ∧
    (∀ p ∈ [(("Wins" : String), (1 : Int))], 0 < p.2) ∧
    ([(("Fours" : String), (1 : Nat)), ("Sixes", 0)] =
      [("Fours", displayedFours [dFour] "X"), ("Sixes", displayedSixes [dFour] "X")]) :=
  pie_zero_exclusion_amended [mAB] "A" [dFour] "X" _ _ (by decide) (by decide)

/-- Counterexample to C9: team "B" participates (as team2) in the only
match of the table, yet it is absent from the selector list, because
the list is built from distinct team1 values only. -/
theorem team_selector_counterexample :
    totalMatches [mAB] "B" = 1 ∧ "B" ∉ teamsList [mAB] := by
  constructor
  · decide
  · simp [teamsList, List.mem_insertionSort, List.mem_dedup, mAB]

/-- C9 amended: the selector list contains exactly the teams appearing
as team1 of some match (a team appearing only as team2 is missing),
sorted ascending, each exactly once. -/
theorem team_selector_amended (ms : List MatchRow) (t : String) :
    (t ∈ teamsList ms ↔ ∃ m ∈ ms, m.team1 = t) ∧
    (teamsList ms).Sorted (· ≤ ·) ∧
    (t ∈ teamsList ms → (teamsList ms).count t = 1) := by
  refine ⟨?_, ?_, ?_⟩
  · unfold teamsList
    rw [List.mem_insertionSort, List.mem_dedup, List.mem_map]
  · exact List.sorted_insertionSort _ _
  · intro h
    unfold teamsList at h ⊢
    rw [(List.perm_insertionSort _ _).count_eq]
    rw [List.mem_insertionSort] at h
    exact List.count_eq_one_of_mem (List.nodup_dedup _) h

/-- Witness for C9 amended: team "A" occurs exactly once in the
selector list of a one-match table. -/
theorem team_selector_amended_witness :
    (teamsList [mAB]).count "A" = 1 :=
  (team_selector_amended [mAB] "A").2.2
    ((team_selector_amended [mAB] "A").1.mpr ⟨mAB, by simp, rfl⟩)
